import Mathlib

/-
  Verification of the moongate-mcp-server session/credential lifecycle.

  This file shallowly embeds the SessionManager (src/session/manager.ts),
  its persistence behaviour, the OAuth callback handler, and the tool
  dispatcher (src/server.ts) as pure Lean functions, and proves the spec's
  claims about them.

  Modelling conventions:
  - Instants are `Int` milliseconds since the epoch (JS `Date.now()`).
  - A single call's `Date.now()` reads are modelled by one `now` parameter.
  - An upstream HTTP call's outcome is passed in as an `Except` value; each
    manager operation additionally reports how many upstream calls it made.
  - The persisted record (file `~/.moongate-mcp/session.json`) is modelled
    as `Option String`: `none` = file absent, `some c` = file with content
    `c`.  `saveSession` writes `JSON.stringify(session, null, 2)`, which is
    modelled byte-for-byte by `serializeSession`.
  - TypeScript declares `authProvider: 'google' | 'apple' | 'manual'`, but
    the OAuth callback assigns `url.searchParams.get('provider')` through an
    unchecked cast, so the runtime value may be `null`; we therefore model
    the field as `Option String`.
-/

namespace MoonGate

/-- JavaScript truthiness test for a `string | null | undefined` value:
`null`, `undefined` and the empty string are falsy. -/
def falsy : Option String → Bool
  | none => true
  | some s => s = ""

/-- JavaScript `x || ''` on a `string | null | undefined` value. -/
def jsOr (o : Option String) : String :=
  if falsy o then "" else o.getD ""

/--`SessionData` from src/session/types.ts.  Field order matches the object
literal insertion order used by every construction site, which is the key
order `JSON.stringify` serializes. -/
structure SessionData where
  token : String
  publicKey : String
  userId : String
  authProvider : Option String
  createdAt : Int
  expiresAt : Int
deriving Repr, DecidableEq

/-- `AuthResponse` from src/session/types.ts: the body of `GET /api2/auth`.
The TS interface declares all three fields as `string`, but the code guards
against `publicKey`/`userId` being absent at runtime (manager.ts lines
38-52), so they are modelled as `Option String`. -/
structure AuthResponse where
  token : String
  publicKey : Option String
  userId : Option String
deriving Repr, DecidableEq

/-- `TOKEN_REFRESH_THRESHOLD = 60 * 60 * 1000` (manager.ts line 12): one
hour in milliseconds. -/
def TOKEN_REFRESH_THRESHOLD : Int := 60 * 60 * 1000

/-- `7 * 24 * 60 * 60 * 1000`: the fixed 7-day session lifetime used at
every construction and refresh site in manager.ts. -/
def SEVEN_DAYS_MS : Int := 7 * 24 * 60 * 60 * 1000

/-- The errors thrown by SessionManager (manager.ts), one constructor per
distinct `throw new Error(...)` site. -/
inductive SMError where
  | notAuthenticated
  | sessionExpired
  | invalidManualToken
  | oauthMissingParams
  | oauthTimeout
deriving Repr, DecidableEq

/-- Hexadecimal digit character (lower case), for JSON control escapes. -/
def hexDigit (n : Nat) : Char :=
  if n < 10 then Char.ofNat (48 + n) else Char.ofNat (87 + n)

/-- Four-digit hexadecimal rendering of a code point below 0x10000. -/
def hex4 (n : Nat) : String :=
  String.mk [hexDigit (n / 4096 % 16), hexDigit (n / 256 % 16),
    hexDigit (n / 16 % 16), hexDigit (n % 16)]

/-- One character of `JSON.stringify` string escaping. -/
def jsonEscapeChar (c : Char) : String :=
  if c = '"' then "\\\""
  else if c = '\\' then "\\\\"
  else if c = '\x08' then "\\b"
  else if c = '\x09' then "\\t"
  else if c = '\x0a' then "\\n"
  else if c = '\x0c' then "\\f"
  else if c = '\x0d' then "\\r"
  else if c.toNat < 32 then "\\u" ++ hex4 c.toNat
  else String.singleton c

/-- `JSON.stringify` of a string value. -/
def jsonString (s : String) : String :=
  "\"" ++ String.join (s.toList.map jsonEscapeChar) ++ "\""

/-- `JSON.stringify(session, null, 2)` as written by `saveSession`
(manager.ts line 370): two-space indentation, keys in the insertion order
of `SessionData`, `authProvider` rendered as `null` when absent. -/
def serializeSession (s : SessionData) : String :=
  "\x7b\n  \"token\": " ++ jsonString s.token ++
  ",\n  \"publicKey\": " ++ jsonString s.publicKey ++
  ",\n  \"userId\": " ++ jsonString s.userId ++
  ",\n  \"authProvider\": " ++
    (match s.authProvider with
      | none => "null"
      | some p => jsonString p) ++
  ",\n  \"createdAt\": " ++ toString s.createdAt ++
  ",\n  \"expiresAt\": " ++ toString s.expiresAt ++
  "\n\x7d"

/-- The SessionManager's observable state: the in-memory `this.session`
and the persisted file content (`none` when the file is absent). -/
structure ManagerState where
  session : Option SessionData
  disk : Option String
deriving Repr, DecidableEq

/-- `refreshTokenIfNeeded` (manager.ts lines 120-146).  Parameters: the
current state, the current time, and the outcome the upstream
`GET /api2/auth` call would have (consulted only if a refresh is issued).
Returns the new state, the number of upstream calls issued, and `ok` or
the thrown error.  On success the session's `token` and `expiresAt` are
updated in place and `saveSession` writes the serialized session to disk;
on failure the session is cleared from memory and the file is deleted
(`clearSession`) and `Session expired` is thrown. -/
def refreshTokenIfNeeded (st : ManagerState) (now : Int)
    (upstream : Except Unit AuthResponse) :
    ManagerState × Nat × Except SMError Unit :=
  match st.session with
  | none => (st, 0, Except.ok ())
  | some s =>
    let timeUntilExpiry := s.expiresAt - now
    if timeUntilExpiry < TOKEN_REFRESH_THRESHOLD then
      match upstream with
      | Except.ok resp =>
        let s2 : SessionData :=
          { s with token := resp.token, expiresAt := now + SEVEN_DAYS_MS }
        ({ session := some s2, disk := some (serializeSession s2) }, 1,
          Except.ok ())
      | Except.error _ =>
        ({ session := none, disk := none }, 1, Except.error SMError.sessionExpired)
    else
      (st, 0, Except.ok ())

/-- `getToken` (manager.ts lines 100-107): throws `Not authenticated` when
no session exists, otherwise runs `refreshTokenIfNeeded` and returns the
(possibly refreshed) session's token. -/
def getToken (st : ManagerState) (now : Int)
    (upstream : Except Unit AuthResponse) :
    ManagerState × Nat × Except SMError String :=
  match st.session with
  | none => (st, 0, Except.error SMError.notAuthenticated)
  | some _ =>
    let r := refreshTokenIfNeeded st now upstream
    match r.2.2 with
    | Except.error e => (r.1, r.2.1, Except.error e)
    | Except.ok _ =>
      match (r.1).session with
      | some s2 => (r.1, r.2.1, Except.ok s2.token)
      | none => (r.1, r.2.1, Except.error SMError.notAuthenticated)

/-- `getSession` (manager.ts lines 90-95). -/
def getSession (st : ManagerState) : Except SMError SessionData :=
  match st.session with
  | none => Except.error SMError.notAuthenticated
  | some s => Except.ok s

/-- The `/callback` branch of the OAuth listener's request handler
(manager.ts lines 158-191).  The four query parameters are `Option String`
(`URLSearchParams.get` returns `null` when absent).  If `token`,
`publicKey` or `userId` is falsy the handler rejects with
`OAuth callback missing parameters` and persists nothing; otherwise it
builds the session (with `authProvider` taken from the unchecked-cast
`provider` parameter, possibly `null`), saves it to disk, and resolves. -/
def handleCallback (st : ManagerState) (now : Int)
    (token publicKey userId provider : Option String) :
    ManagerState × Except SMError Unit :=
  if falsy token || falsy publicKey || falsy userId then
    (st, Except.error SMError.oauthMissingParams)
  else
    let s : SessionData :=
      { token := jsOr token, publicKey := jsOr publicKey,
        userId := jsOr userId, authProvider := provider,
        createdAt := now, expiresAt := now + SEVEN_DAYS_MS }
    ({ session := some s, disk := some (serializeSession s) }, Except.ok ())

/-- The environment consulted by `SessionManager.initialize` on its manual
path: the `MOONGATE_TOKEN` variable, the clock, and the outcomes the two
upstream validation calls would have.  `walletAddress` is the `publicKey`
field of the `GET /api2/getwalletaddress` body (consulted only when the
auth response's `publicKey` is falsy). -/
structure InitEnv where
  manualToken : Option String
  now : Int
  authCheck : Except Unit AuthResponse
  walletAddress : Except Unit (Option String)
deriving Repr

/-- What a run of `initialize` did: final state, how many reads and writes
of the persisted record it performed, whether the OAuth listener was
started, and the returned/thrown outcome. -/
structure InitTrace where
  state : ManagerState
  diskReads : Nat
  diskWrites : Nat
  oauthStarted : Bool
  result : Except SMError Unit
deriving Repr

/-- `SessionManager.initialize` (manager.ts lines 27-85), embedding the
manual-token branch (lines 29-64) exactly; `rest` abstracts the remainder
of the function (the persisted-session load of lines 66-81 and the OAuth
flow of line 84), which runs only when `MOONGATE_TOKEN` is falsy.  On the
manual path: any failure of the validation calls is caught and rethrown as
`Invalid MOONGATE_TOKEN` with the state untouched; on success the session
is held in memory only (no `saveSession` call exists on this path) with
`authProvider = 'manual'` and a 7-day expiry, and the function returns
before ever touching the persisted record. -/
def initSession (st : ManagerState) (env : InitEnv)
    (rest : ManagerState → InitTrace) : InitTrace :=
  if falsy env.manualToken then rest st
  else
    match env.authCheck with
    | Except.error _ =>
      { state := st, diskReads := 0, diskWrites := 0, oauthStarted := false,
        result := Except.error SMError.invalidManualToken }
    | Except.ok resp =>
      let resolved : Except Unit (Option String) :=
        if falsy resp.publicKey then env.walletAddress else Except.ok resp.publicKey
      match resolved with
      | Except.error _ =>
        { state := st, diskReads := 0, diskWrites := 0, oauthStarted := false,
          result := Except.error SMError.invalidManualToken }
      | Except.ok pk =>
        let s : SessionData :=
          { token := resp.token, publicKey := jsOr pk,
            userId := jsOr resp.userId, authProvider := some "manual",
            createdAt := env.now, expiresAt := env.now + SEVEN_DAYS_MS }
        { state := { session := some s, disk := st.disk },
          diskReads := 0, diskWrites := 0, oauthStarted := false,
          result := Except.ok () }

/-- Event-loop state of one `startOAuthFlow` run (manager.ts lines
151-216): how many times `server.close()` has been invoked, how many times
the promise has been settled (`resolve` or `reject` invoked), and whether
the 5-minute timer has been cancelled (`clearTimeout`). -/
structure FlowState where
  closeCount : Nat
  settledCount : Nat
  timerCleared : Bool
deriving Repr, DecidableEq

/-- State right after `server.listen` succeeds and the timer is armed. -/
def flowInit : FlowState :=
  { closeCount := 0, settledCount := 0, timerCleared := false }

/-- Effect of one `/callback` request on the flow state (manager.ts lines
158-191): both the missing-parameter branch (`server.close(); reject`) and
the success branch (`saveSession; server.close(); resolve`) invoke
`server.close()` once and settle the promise once.  No branch of the
handler calls `clearTimeout` — no such call exists anywhere in
`startOAuthFlow` — so `timerCleared` is left as-is. -/
def onCallbackRequest (fs : FlowState) : FlowState :=
  { fs with closeCount := fs.closeCount + 1,
            settledCount := fs.settledCount + 1 }

/-- Effect of the 5-minute timer firing (manager.ts lines 211-214:
`setTimeout(() => { server.close(); reject(...) }, 5 * 60 * 1000)`).  An
armed timer whose handle was cancelled does not run; otherwise its body
invokes `server.close()` and `reject` unconditionally. -/
def onTimerFire (fs : FlowState) : FlowState :=
  if fs.timerCleared then fs
  else { fs with closeCount := fs.closeCount + 1,
                 settledCount := fs.settledCount + 1 }

/-- The tool names registered in src/tools/index.ts. -/
def toolNames : List String :=
  ["get_wallet_address", "sign_message", "sign_transaction", "send_token",
   "get_portfolio", "swap_token"]

/-- The structured error payload built by the dispatcher's catch block
(server.ts: `JSON.stringify({ error: ..., tool: toolName })` with
`isError: true`). -/
structure ErrorPayload where
  error : String
  tool : String
deriving Repr, DecidableEq

/-- Outcome of the `CallToolRequestSchema` handler in
`MoonGateMCPServer.setupHandlers` (src/server.ts): a successful content
response, a structured error payload returned with `isError: true`, or an
exception thrown out of the handler. -/
inductive DispatchOutcome where
  | success (text : String)
  | errorPayload (p : ErrorPayload)
  | thrown (msg : String)
deriving Repr, DecidableEq

/-- The `CallToolRequestSchema` handler of src/server.ts.  `handlerResult`
abstracts the selected tool's handler: `ok` is its JSON-stringified result,
`error msg` a rejection whose `error.message` is `msg`.  When the name is
not registered the handler throws `Unknown tool: <name>` before entering
its try block; tool-handler failures are caught and converted to a
structured payload with `error.message || 'Unknown error'` and the tool's
name. -/
def callToolHandler (handlerResult : String → Except String String)
    (toolName : String) : DispatchOutcome :=
  if toolNames.contains toolName then
    match handlerResult toolName with
    | Except.ok r => DispatchOutcome.success r
    | Except.error msg =>
      DispatchOutcome.errorPayload
        { error := if msg = "" then "Unknown error" else msg, tool := toolName }
  else
    DispatchOutcome.thrown ("Unknown tool: " ++ toolName)

/-- The provider values admitted by the declared TypeScript union type
`'google' | 'apple' | 'manual'` of `SessionData.authProvider`
(src/session/types.ts). -/
def isDeclaredProvider : Option String → Bool
  | some "google" => true
  | some "apple" => true
  | some "manual" => true
  | _ => false

/-
  Theorems.
-/

/-- Claim C1: for every in-memory session whose `expiresAt` is more than
1 hour after the current time, `getToken()` returns the session's existing
token, issues no upstream HTTP call, and leaves both the in-memory session
(all six fields) and the persisted record unchanged. -/
theorem C1_fresh_session_no_refresh (st : ManagerState) (now : Int)
    (upstream : Except Unit AuthResponse) (s : SessionData)
    (hs : st.session = some s)
    (hfresh : TOKEN_REFRESH_THRESHOLD < s.expiresAt - now) :
    getToken st now upstream = (st, 0, Except.ok s.token) := by
  have hnot : ¬ (s.expiresAt - now < TOKEN_REFRESH_THRESHOLD) :=
    not_lt.mpr hfresh.le
  obtain ⟨sess, disk⟩ := st
  simp only [ManagerState.session] at hs
  subst hs
  simp [getToken, refreshTokenIfNeeded, hnot]

/-- Witness for C1 at a concrete state: a session expiring 2 hours from
now keeps its token and its state. -/
theorem C1_fresh_session_no_refresh_witness :
    getToken
      { session := some
          { token := "t0", publicKey := "pk", userId := "u",
            authProvider := some "google", createdAt := 0,
            expiresAt := 7200000 },
        disk := none }
      0 (Except.error ()) =
    ({ session := some
          { token := "t0", publicKey := "pk", userId := "u",
            authProvider := some "google", createdAt := 0,
            expiresAt := 7200000 },
        disk := none }, 0, Except.ok "t0") :=
  C1_fresh_session_no_refresh _ 0 (Except.error ()) _ rfl (by decide)

/-- Claim C2: for every in-memory session within 1 hour of expiry,
`getToken()` issues exactly one upstream refresh call; when it succeeds,
the session's token is replaced by the response's token, the new
`expiresAt` is the call time plus 7 days, and the record persisted on
disk is byte-for-byte the serialization of the in-memory session. -/
theorem C2_near_expiry_refresh_success (st : ManagerState) (now : Int)
    (resp : AuthResponse) (s : SessionData)
    (hs : st.session = some s)
    (hnear : s.expiresAt - now < TOKEN_REFRESH_THRESHOLD) :
    getToken st now (Except.ok resp) =
      ({ session := some
            { s with token := resp.token, expiresAt := now + SEVEN_DAYS_MS },
          disk := some (serializeSession
            { s with token := resp.token, expiresAt := now + SEVEN_DAYS_MS }) },
        1, Except.ok resp.token) := by
  obtain ⟨sess, disk⟩ := st
  simp only [ManagerState.session] at hs
  subst hs
  simp [getToken, refreshTokenIfNeeded, hnear]

/-- Witness for C2: a session 30 minutes from expiry is refreshed, its
expiry is reset to 7 days from the call, and the serialized session is
written to disk. -/
theorem C2_near_expiry_refresh_success_witness :
    getToken
      { session := some
          { token := "t0", publicKey := "pk", userId := "u",
            authProvider := some "google", createdAt := 0,
            expiresAt := 1800000 },
        disk := none }
      0 (Except.ok { token := "t1", publicKey := none, userId := none }) =
    ({ session := some
          { token := "t1", publicKey := "pk", userId := "u",
            authProvider := some "google", createdAt := 0,
            expiresAt := 604800000 },
        disk := some (serializeSession
          { token := "t1", publicKey := "pk", userId := "u",
            authProvider := some "google", createdAt := 0,
            expiresAt := 604800000 }) },
      1, Except.ok "t1") :=
  C2_near_expiry_refresh_success _ 0
    { token := "t1", publicKey := none, userId := none } _ rfl (by decide)

/-- Claim C3: when a refresh attempt is rejected upstream, the enclosing
`getToken()` call fails with the session-expired error, afterwards no
session exists in memory and no record exists on disk, and `getSession()`
on the resulting state fails with the not-authenticated error. -/
theorem C3_refresh_failure_destroys_session (st : ManagerState) (now : Int)
    (s : SessionData)
    (hs : st.session = some s)
    (hnear : s.expiresAt - now < TOKEN_REFRESH_THRESHOLD) :
    getToken st now (Except.error ()) =
      ({ session := none, disk := none }, 1,
        Except.error SMError.sessionExpired) ∧
    getSession { session := none, disk := none } =
      Except.error SMError.notAuthenticated := by
  obtain ⟨sess, disk⟩ := st
  simp only [ManagerState.session] at hs
  subst hs
  exact ⟨by simp [getToken, refreshTokenIfNeeded, hnear], rfl⟩

/-- Witness for C3: an upstream rejection at 30 minutes to expiry clears
memory and disk and fails with the session-expired error. -/
theorem C3_refresh_failure_destroys_session_witness :
    getToken
      { session := some
          { token := "t0", publicKey := "pk", userId := "u",
            authProvider := some "google", createdAt := 0,
            expiresAt := 1800000 },
        disk := some "old" }
      0 (Except.error ()) =
      ({ session := none, disk := none }, 1,
        Except.error SMError.sessionExpired) ∧
    getSession { session := none, disk := none } =
      Except.error SMError.notAuthenticated :=
  C3_refresh_failure_destroys_session _ 0 _ rfl (by decide)

/-- State after the OAuth callback creates a session at time 0. -/
def c4AfterCreate : ManagerState :=
  (handleCallback { session := none, disk := none } 0
    (some "tok") (some "pk") (some "uid") (some "google")).1

/-- Claim C4 is false on the code: `refreshTokenIfNeeded` resets
`expiresAt` to now + 7 days but never updates `createdAt` (manager.ts
lines 133-134), so immediately after a successful refresh of a session
created at time 0 and refreshed at time `SEVEN_DAYS_MS`, the session has
`createdAt = 0` and `expiresAt = 2 * SEVEN_DAYS_MS ≠ createdAt + 7 days`. -/
theorem C4_counterexample :
    ((getToken c4AfterCreate SEVEN_DAYS_MS
        (Except.ok { token := "tok2", publicKey := none, userId := none })).1).session.map
        (fun s => (s.createdAt, s.expiresAt)) = some (0, 1209600000) ∧
    (1209600000 : Int) ≠ 0 + SEVEN_DAYS_MS := by
  exact ⟨rfl, by decide⟩

/-- Claim C4 (amended): at creation time, a session built by the
manual-token path or by the OAuth callback path satisfies
`expiresAt = createdAt + 7 days`; a successful refresh instead sets
`expiresAt` to the refresh time plus 7 days while leaving `createdAt` (and
`publicKey`, `userId`, `authProvider`) unchanged, so the creation-time
equality is not preserved across refreshes.  (The persisted-load path
adopts whatever record is on disk unmodified, so no equation is asserted
for it.) -/
theorem C4_amended_expiry_at_creation (st : ManagerState) (env : InitEnv)
    (rest : ManagerState → InitTrace) (now : Int) (resp : AuthResponse)
    (tok pk uid prov : Option String) (s : SessionData) :
    (falsy env.manualToken = false →
      (initSession st env rest).result = Except.ok () →
      ∀ s0, ((initSession st env rest).state).session = some s0 →
        s0.expiresAt = s0.createdAt + SEVEN_DAYS_MS) ∧
    ((falsy tok || falsy pk || falsy uid) = false →
      ∀ s0, ((handleCallback st now tok pk uid prov).1).session = some s0 →
        s0.expiresAt = s0.createdAt + SEVEN_DAYS_MS) ∧
    (st.session = some s → s.expiresAt - now < TOKEN_REFRESH_THRESHOLD →
      ((refreshTokenIfNeeded st now (Except.ok resp)).1).session =
        some { s with token := resp.token,
                      expiresAt := now + SEVEN_DAYS_MS }) := by
  refine ⟨?_, ?_, ?_⟩
  · intro hm hres s0 hs0
    rcases env with ⟨mt, tnow, ac, wa⟩
    simp only at hm
    rcases ac with u | resp0
    · simp [initSession, hm] at hres
    · by_cases hpk : falsy resp0.publicKey
      · rcases wa with u | pk2
        · simp [initSession, hm, hpk] at hres
        · simp [initSession, hm, hpk] at hs0
          rw [← hs0]
      · simp [initSession, hm, hpk] at hs0
        rw [← hs0]
  · intro hv s0 hs0
    simp [handleCallback, hv] at hs0
    rw [← hs0]
  · intro hs hnear
    obtain ⟨sess, disk⟩ := st
    simp only [ManagerState.session] at hs
    subst hs
    simp [refreshTokenIfNeeded, hnear]

/-- Concrete session used by the C4 witness: created at 0, expiring at
1000 (so within the refresh window at time 500). -/
def c4WitnessSession : SessionData :=
  { token := "x", publicKey := "y", userId := "z",
    authProvider := some "apple", createdAt := 0, expiresAt := 1000 }

/-- Concrete environment used by the C4 witness: a manual token whose
validation succeeds with a resolvable wallet address. -/
def c4WitnessEnv : InitEnv :=
  { manualToken := some "mt", now := 5,
    authCheck := Except.ok
      { token := "t", publicKey := some "p", userId := some "u" },
    walletAddress := Except.error () }

/-- Trivial abstraction of the non-manual part of `initialize`, used by
witnesses (never reached on the manual path). -/
def restNoop (st : ManagerState) : InitTrace :=
  { state := st, diskReads := 0, diskWrites := 0, oauthStarted := false,
    result := Except.ok () }

/-- Witness for the amended C4 at concrete inputs: manual-path creation at
time 5 and callback creation at time 500 both satisfy the equation, and a
refresh at time 500 of a session created at 0 produces `expiresAt = 500 +
7 days` with `createdAt` still 0. -/
theorem C4_amended_expiry_at_creation_witness :
    ((5 : Int) + SEVEN_DAYS_MS = 5 + SEVEN_DAYS_MS) ∧
    ((500 : Int) + SEVEN_DAYS_MS = 500 + SEVEN_DAYS_MS) ∧
    ((refreshTokenIfNeeded { session := some c4WitnessSession, disk := none }
        500 (Except.ok
          { token := "x2", publicKey := none, userId := none })).1).session =
      some
        { token := "x2", publicKey := "y", userId := "z",
          authProvider := some "apple", createdAt := 0,
          expiresAt := 500 + SEVEN_DAYS_MS } := by
  have T := C4_amended_expiry_at_creation
    { session := some c4WitnessSession, disk := none } c4WitnessEnv restNoop
    500 { token := "x2", publicKey := none, userId := none }
    (some "a") (some "b") (some "c") (some "google") c4WitnessSession
  exact ⟨T.1 (by decide) rfl _ rfl, T.2.1 (by decide) _ rfl,
    T.2.2 rfl (by decide)⟩

/-- A manual-token session created at 0, about to expire at
`SEVEN_DAYS_MS`. -/
def c5ManualSession : SessionData :=
  { token := "tok", publicKey := "pk", userId := "uid",
    authProvider := some "manual", createdAt := 0,
    expiresAt := SEVEN_DAYS_MS }

/-- What `refreshTokenIfNeeded` turns `c5ManualSession` into at time
`SEVEN_DAYS_MS - 1000`. -/
def c5RefreshedManual : SessionData :=
  { token := "tok2", publicKey := "pk", userId := "uid",
    authProvider := some "manual", createdAt := 0,
    expiresAt := SEVEN_DAYS_MS - 1000 + SEVEN_DAYS_MS }

/-- Claim C5 is false on the code: `refreshTokenIfNeeded` does not
special-case `authProvider = 'manual'` (manager.ts lines 120-146), so
`getToken()` on a manual session 1000 ms from expiry issues one upstream
refresh call, replaces its token, and writes the session to the persisted
record — which the claim says never happens for manual sessions. -/
theorem C5_counterexample :
    getToken { session := some c5ManualSession, disk := none }
        (SEVEN_DAYS_MS - 1000)
        (Except.ok { token := "tok2", publicKey := none, userId := none }) =
      ({ session := some c5RefreshedManual,
          disk := some (serializeSession c5RefreshedManual) },
        1, Except.ok "tok2") ∧
    c5ManualSession.authProvider = some "manual" ∧
    some (serializeSession c5RefreshedManual) ≠ (none : Option String) := by
  refine ⟨?_, rfl, by simp⟩
  have hnear : (1000 : Int) < TOKEN_REFRESH_THRESHOLD := by decide
  simp [getToken, refreshTokenIfNeeded, hnear, c5ManualSession,
    c5RefreshedManual]

/-- Claim C5 (amended): `initialize()` itself never persists a
manual-token session, and `getToken()` on a manual session more than 1
hour from expiry performs no upstream call and no disk write; but a manual
session within 1 hour of expiry is refreshed and written to the persisted
record by `getToken()` exactly like a google/apple session, because
`refreshTokenIfNeeded` never inspects `authProvider`. -/
theorem C5_amended_manual_refresh (st : ManagerState) (now : Int)
    (upstream : Except Unit AuthResponse) (resp : AuthResponse)
    (s : SessionData) (hs : st.session = some s)
    (_hm : s.authProvider = some "manual") :
    (TOKEN_REFRESH_THRESHOLD < s.expiresAt - now →
      getToken st now upstream = (st, 0, Except.ok s.token)) ∧
    (s.expiresAt - now < TOKEN_REFRESH_THRESHOLD →
      getToken st now (Except.ok resp) =
        ({ session := some
              { s with token := resp.token,
                       expiresAt := now + SEVEN_DAYS_MS },
            disk := some (serializeSession
              { s with token := resp.token,
                       expiresAt := now + SEVEN_DAYS_MS }) },
          1, Except.ok resp.token)) := by
  obtain ⟨sess, disk⟩ := st
  simp only [ManagerState.session] at hs
  subst hs
  constructor
  · intro hfresh
    have hnot : ¬ (s.expiresAt - now < TOKEN_REFRESH_THRESHOLD) :=
      not_lt.mpr hfresh.le
    simp [getToken, refreshTokenIfNeeded, hnot]
  · intro hnear
    simp [getToken, refreshTokenIfNeeded, hnear]

/-- Witness for the amended C5: a manual session 2 hours from expiry is
untouched; a manual session 1 second from expiry is refreshed and its
serialization written to disk. -/
theorem C5_amended_manual_refresh_witness :
    getToken
      { session := some
          { token := "m0", publicKey := "pk", userId := "u",
            authProvider := some "manual", createdAt := 0,
            expiresAt := 7200000 },
        disk := none }
      0 (Except.error ()) =
      ({ session := some
            { token := "m0", publicKey := "pk", userId := "u",
              authProvider := some "manual", createdAt := 0,
              expiresAt := 7200000 },
          disk := none }, 0, Except.ok "m0") ∧
    getToken
      { session := some
          { token := "m0", publicKey := "pk", userId := "u",
            authProvider := some "manual", createdAt := 0,
            expiresAt := 1000 },
        disk := none }
      0 (Except.ok { token := "m1", publicKey := none, userId := none }) =
      ({ session := some
            { token := "m1", publicKey := "pk", userId := "u",
              authProvider := some "manual", createdAt := 0,
              expiresAt := 0 + SEVEN_DAYS_MS },
          disk := some (serializeSession
            { token := "m1", publicKey := "pk", userId := "u",
              authProvider := some "manual", createdAt := 0,
              expiresAt := 0 + SEVEN_DAYS_MS }) },
        1, Except.ok "m1") := by
  exact ⟨(C5_amended_manual_refresh _ 0 (Except.error ())
      { token := "m1", publicKey := none, userId := none } _ rfl rfl).1
      (by decide),
    (C5_amended_manual_refresh _ 0
      (Except.ok { token := "m1", publicKey := none, userId := none })
      { token := "m1", publicKey := none, userId := none } _ rfl rfl).2
      (by decide)⟩

/-- Claim C6: whenever a truthy `MOONGATE_TOKEN` is configured,
`initialize()` performs no read and no write of the persisted record and
never starts the OAuth listener; its outcome is independent of everything
past the manual branch (no fallthrough); the only error it can produce is
`InvalidManualToken`; and on success the session is held in memory only
(the disk is exactly what it was), with `authProvider = 'manual'`,
`createdAt = now` and `expiresAt = now + 7 days`. -/
theorem C6_manual_token_bypasses_store (st : ManagerState) (env : InitEnv)
    (rest : ManagerState → InitTrace)
    (hm : falsy env.manualToken = false) :
    (initSession st env rest).diskReads = 0 ∧
    (initSession st env rest).diskWrites = 0 ∧
    (initSession st env rest).oauthStarted = false ∧
    ((initSession st env rest).state).disk = st.disk ∧
    (∀ rest2, initSession st env rest2 = initSession st env rest) ∧
    (∀ e, (initSession st env rest).result = Except.error e →
      e = SMError.invalidManualToken) ∧
    ((initSession st env rest).result = Except.ok () →
      ∃ s0, ((initSession st env rest).state).session = some s0 ∧
        s0.authProvider = some "manual" ∧
        s0.createdAt = env.now ∧
        s0.expiresAt = env.now + SEVEN_DAYS_MS) := by
  rcases env with ⟨mt, tnow, ac, wa⟩
  simp only at hm
  rcases ac with u | resp0
  · simp [initSession, hm]
  · by_cases hpk : falsy resp0.publicKey
    · rcases wa with u | pk2
      · simp [initSession, hm, hpk]
      · simp [initSession, hm, hpk]
    · simp [initSession, hm, hpk]

/-- Concrete environment for the C6 witness: a valid manual token whose
auth response already carries a wallet address. -/
def c6WitnessEnv : InitEnv :=
  { manualToken := some "manual-jwt", now := 42,
    authCheck := Except.ok
      { token := "fresh", publicKey := some "addr", userId := some "uid" },
    walletAddress := Except.error () }

/-- Witness for C6: with a persisted record on disk and a valid manual
token, `initialize()` leaves the record exactly as it was, performs no
store access, and yields a memory-only manual session. -/
theorem C6_manual_token_bypasses_store_witness :
    (initSession { session := none, disk := some "persisted" } c6WitnessEnv
      restNoop).diskReads = 0 ∧
    (initSession { session := none, disk := some "persisted" } c6WitnessEnv
      restNoop).diskWrites = 0 ∧
    ((initSession { session := none, disk := some "persisted" } c6WitnessEnv
      restNoop).state).disk = some "persisted" ∧
    (∃ s0, ((initSession { session := none, disk := some "persisted" }
        c6WitnessEnv restNoop).state).session = some s0 ∧
      s0.authProvider = some "manual" ∧
      s0.createdAt = c6WitnessEnv.now ∧
      s0.expiresAt = c6WitnessEnv.now + SEVEN_DAYS_MS) := by
  have T := C6_manual_token_bypasses_store
    { session := none, disk := some "persisted" } c6WitnessEnv restNoop
    (by decide)
  exact ⟨T.1, T.2.1, T.2.2.2.1, T.2.2.2.2.2.2 rfl⟩

/-- Claim C7: a callback request carrying non-empty `token`, `publicKey`,
`userId` and a `provider` completes the flow with a session whose fields
equal those parameters (`authProvider` = the provider parameter) and
persists its serialization to disk; a callback request missing the `token`
parameter fails with the missing-parameters error and persists nothing
(the state is untouched). -/
theorem C7_oauth_callback_completion (st : ManagerState) (now : Int)
    (t pk uid prov : String) (pk2 uid2 prov2 : Option String)
    (ht : t ≠ "") (hpk : pk ≠ "") (huid : uid ≠ "") :
    handleCallback st now (some t) (some pk) (some uid) (some prov) =
      ({ session := some
            { token := t, publicKey := pk, userId := uid,
              authProvider := some prov, createdAt := now,
              expiresAt := now + SEVEN_DAYS_MS },
          disk := some (serializeSession
            { token := t, publicKey := pk, userId := uid,
              authProvider := some prov, createdAt := now,
              expiresAt := now + SEVEN_DAYS_MS }) },
        Except.ok ()) ∧
    handleCallback st now none pk2 uid2 prov2 =
      (st, Except.error SMError.oauthMissingParams) := by
  constructor
  · simp [handleCallback, falsy, jsOr, ht, hpk, huid]
  · simp [handleCallback, falsy]

/-- Witness for C7 at the spec's end-to-end values
`/callback?token=T&publicKey=P&userId=U&provider=google`, plus a callback
with no `token`. -/
theorem C7_oauth_callback_completion_witness :
    handleCallback { session := none, disk := none } 0
        (some "T") (some "P") (some "U") (some "google") =
      ({ session := some
            { token := "T", publicKey := "P", userId := "U",
              authProvider := some "google", createdAt := 0,
              expiresAt := 0 + SEVEN_DAYS_MS },
          disk := some (serializeSession
            { token := "T", publicKey := "P", userId := "U",
              authProvider := some "google", createdAt := 0,
              expiresAt := 0 + SEVEN_DAYS_MS }) },
        Except.ok ()) ∧
    handleCallback { session := none, disk := none } 0
        none (some "P") (some "U") (some "google") =
      ({ session := none, disk := none },
        Except.error SMError.oauthMissingParams) :=
  C7_oauth_callback_completion { session := none, disk := none } 0
    "T" "P" "U" "google" (some "P") (some "U") (some "google")
    (by decide) (by decide) (by decide)

/-- Claim C10: a callback request with non-empty `token`, `publicKey`,
`userId` but no `provider` parameter still completes the flow and persists
a session whose `authProvider` is the absent value (`null` through the
unchecked cast at manager.ts line 164), a value outside the declared
`'google' | 'apple' | 'manual'` union. -/
theorem C10_absent_provider_completes (st : ManagerState) (now : Int)
    (t pk uid : String)
    (ht : t ≠ "") (hpk : pk ≠ "") (huid : uid ≠ "") :
    handleCallback st now (some t) (some pk) (some uid) none =
      ({ session := some
            { token := t, publicKey := pk, userId := uid,
              authProvider := none, createdAt := now,
              expiresAt := now + SEVEN_DAYS_MS },
          disk := some (serializeSession
            { token := t, publicKey := pk, userId := uid,
              authProvider := none, createdAt := now,
              expiresAt := now + SEVEN_DAYS_MS }) },
        Except.ok ()) ∧
    isDeclaredProvider none = false := by
  constructor
  · simp [handleCallback, falsy, jsOr, ht, hpk, huid]
  · rfl

/-- Witness for C10 at concrete parameters. -/
theorem C10_absent_provider_completes_witness :
    handleCallback { session := none, disk := none } 0
        (some "T") (some "P") (some "U") none =
      ({ session := some
            { token := "T", publicKey := "P", userId := "U",
              authProvider := none, createdAt := 0,
              expiresAt := 0 + SEVEN_DAYS_MS },
          disk := some (serializeSession
            { token := "T", publicKey := "P", userId := "U",
              authProvider := none, createdAt := 0,
              expiresAt := 0 + SEVEN_DAYS_MS }) },
        Except.ok ()) ∧
    isDeclaredProvider none = false :=
  C10_absent_provider_completes { session := none, disk := none } 0
    "T" "P" "U" (by decide) (by decide) (by decide)

/-- Claim C8 is right about the intent but wrong about the code: the
5-minute timer armed at manager.ts lines 211-214 is never cancelled (no
`clearTimeout` exists in `startOAuthFlow`), so in the execution where a
callback request completes the flow before the timeout, the timer still
fires and invokes `server.close()` a second time — the listener is closed
twice, and the promise is settled twice. -/
theorem C8_double_close_on_callback_then_timer :
    (onTimerFire (onCallbackRequest flowInit)).closeCount = 2 ∧
    (onCallbackRequest flowInit).timerCleared = false ∧
    (onTimerFire (onCallbackRequest flowInit)).settledCount = 2 := by
  exact ⟨rfl, rfl, rfl⟩

/-- Claim C9 is false on the code: an invocation naming a tool that does
not exist hits the `throw new Error('Unknown tool: ...')` placed before
the dispatcher's try/catch (src/server.ts), so it throws past the dispatch
boundary instead of returning a structured error payload. -/
theorem C9_counterexample :
    callToolHandler (fun _ => Except.ok "") "no_such_tool" =
      DispatchOutcome.thrown "Unknown tool: no_such_tool" := by
  rfl

/-- Claim C9 (amended): for every failing invocation of a registered tool
the dispatcher returns a structured error payload carrying the failing
tool's name and a human-readable message (`error.message`, or
`Unknown error` when empty) and throws nothing; an invocation naming an
unregistered tool instead throws `Unknown tool: <name>` past the dispatch
boundary. -/
theorem C9_amended_dispatch (h : String → Except String String)
    (toolName msg : String) :
    (toolNames.contains toolName = true → h toolName = Except.error msg →
      callToolHandler h toolName = DispatchOutcome.errorPayload
        { error := if msg = "" then "Unknown error" else msg,
          tool := toolName }) ∧
    (toolNames.contains toolName = false →
      callToolHandler h toolName =
        DispatchOutcome.thrown ("Unknown tool: " ++ toolName)) := by
  constructor
  · intro hr hf
    have hr2 : toolName ∈ toolNames := by simpa using hr
    simp [callToolHandler, hr2, hf]
  · intro hr
    have hr2 : toolName ∉ toolNames := by simpa using hr
    simp [callToolHandler, hr2]

/-- Witness for the amended C9: a failing `sign_message` call yields the
structured payload; an unknown name throws. -/
theorem C9_amended_dispatch_witness :
    callToolHandler (fun _ => Except.error "boom") "sign_message" =
      DispatchOutcome.errorPayload
        { error := "boom", tool := "sign_message" } ∧
    callToolHandler (fun _ => Except.error "boom") "no_such_tool" =
      DispatchOutcome.thrown "Unknown tool: no_such_tool" := by
  refine ⟨?_, ?_⟩
  · have T := (C9_amended_dispatch (fun _ => Except.error "boom")
      "sign_message" "boom").1 (by decide) rfl
    simpa using T
  · exact (C9_amended_dispatch (fun _ => Except.error "boom")
      "no_such_tool" "boom").2 (by decide)

end MoonGate
